import Mathlib

/-!
# Verification of the `spectacles.js` AMQP broker

A shallow embedding of `src/packages/brokers/src/index.ts` (the `Amqp`
broker class).  Pure computations of the TypeScript source become Lean
functions; the effects the class performs on its AMQP channel and its
event-emitter notifications become explicit traces of an `Effect` type;
JavaScript exceptions become `Except`.

The abstract `Broker` base class (`./Base`) is not part of the sources;
the pieces of it that the theorems need (the correlation table behind
`_awaitResponse` / `_handleReply`, and the subscription bookkeeping of
`subscribe`) are modelled from the specification and are marked as such
in their doc comments.

Payload values are modelled as `String`; serialized wire bytes are the
type `Bytes`, an abstract injection of payloads.
-/

namespace Spectacles

/-- Modelled from the spec: the serializer of the
`Broker` base class (not under `src/`) is a pure pair of functions
converting an application value to/from a wire-ready byte sequence; we
model the byte sequence abstractly as an injection of payload values. -/
inductive Bytes where
  | ser (payload : String)
deriving Repr, DecidableEq

/-- Modelled from the spec: `Broker#serialize` (base class, not under
`src/`): converts an application value to wire-ready bytes. -/
def serialize (d : String) : Bytes := Bytes.ser d

/-- Modelled from the spec: `Broker#deserialize` (base class, not under
`src/`): decodes wire bytes back to an application value. -/
def deserialize : Bytes → String
  | Bytes.ser d => d

/-- The value of the `expiration` field of `amqp.Options.Publish`:
amqplib permits a string or a number there, and `Amqp.call` branches on
`typeof options.expiration === 'string'`. -/
inductive ExpirationVal where
  | str (s : String)
  | num (n : Nat)
deriving Repr, DecidableEq

/-- JavaScript `parseInt(s, 10)`: the longest leading run of decimal digits, or
`none` (JavaScript `NaN`) when there is no leading digit. -/
def parseInt10 (s : String) : Option Nat :=
  let digits := s.takeWhile Char.isDigit
  if digits.isEmpty then none else digits.toNat?

/-- Publish options (`amqp.Options.Publish`), restricted to the fields the source reads or
writes (`replyTo`, `correlationId`, `expiration`); every remaining field
is bundled into the opaque `rest` component, which the source never
touches. -/
structure PublishOptions where
  replyTo : Option String := none
  correlationId : Option String := none
  expiration : Option ExpirationVal := none
  rest : String := ""
deriving Repr, DecidableEq

/-- Broker options (`AmqpOptions`), restricted to the fields the `Amqp` class reads.
`consume` and `assert` are opaque pass-through values (the source only
forwards them to amqplib). -/
structure AmqpOptions where
  reconnectTimeout : Option Nat := none
  consume : Option String := none
  assert : Option String := none
deriving Repr, DecidableEq

/-- An AMQP message as seen by a consumer callback: the two properties
the source reads (`msg.properties.replyTo`,
`msg.properties.correlationId`) and the content bytes. -/
structure Message where
  replyTo : Option String := none
  correlationId : Option String := none
  content : Bytes
deriving Repr, DecidableEq

/-- The observable actions the `Amqp` broker performs: operations on its
AMQP channel and notifications emitted on itself. -/
inductive Effect where
  | assertQueue (queue : String) (options : Option String)
  | bindQueue (queue : String) (exchange : String) (routingKey : String)
  | consume (queue : String) (tag : String)
  | cancel (tag : String)
  | publishMsg (exchange : String) (routingKey : String) (content : Bytes)
      (options : PublishOptions)
  | sendToQueue (queue : Option String) (content : Bytes) (correlationId : Option String)
  | ackMsg (msg : Message)
  | nackMsg (msg : Message) (allUpTo : Option Bool) (requeue : Option Bool)
  | rejectMsg (msg : Message) (requeue : Bool)
  | emitError (err : String)
deriving Repr, DecidableEq

/-- The JavaScript exception thrown by the `_channel` accessor. -/
inductive ChanError where
  | noChannel
deriving Repr, DecidableEq

/-- The message string of the `_channel` accessor's error
(`new Error('no available amqp channel')`). -/
def ChanError.message : ChanError → String
  | ChanError.noChannel => "no available amqp channel"

/-- The state of an `Amqp` broker instance.

Fields `group`, `subgroup`, `options`, `channel`, `callback` and
`consumers` come directly from the class (`channel` records only whether
a channel is currently assigned; `consumers` is the `_consumers` map as
an association list whose head entry wins).  `subscribed` and `pending`
are the base-class bookkeeping (`Modelled from the spec:` the `Broker`
base class, not under `src/`, keeps a listener registry per event name
and a correlation table of outstanding RPC calls).  `active` is ghost
state: the set of (event, consumer tag) consumers actually alive on the
AMQP server for this instance, used only to state invariants. -/
structure AmqpState where
  group : String := "default"
  subgroup : Option String := none
  options : AmqpOptions := {}
  channel : Bool := false
  callback : Option String := none
  consumers : List (String × String) := []
  subscribed : List String := []
  pending : List String := []
  active : List (String × String) := []
deriving Repr, DecidableEq

/-- Lookup `_consumers[event]` in the consumer map. -/
def consumersGet (m : List (String × String)) (event : String) : Option String :=
  m.lookup event

/-- Overwriting update `_consumers[event] = tag` of the consumer map. -/
def consumersSet (m : List (String × String)) (event tag : String) :
    List (String × String) :=
  (event, tag) :: m.filter (fun p => p.1 != event)

/-- Deletion `delete _consumers[event]` from the consumer map. -/
def consumersDelete (m : List (String × String)) (event : String) :
    List (String × String) :=
  m.filter (fun p => p.1 != event)

/-- The `Amqp` constructor, with its two overloads normalised: the second
argument is either an options object (first overload) or a subgroup
string (second overload).  When the second argument is an options
object, `subgroup` is left unset and that object becomes `options`;
otherwise `options ?? {}` is used. -/
def amqpNew (group : String := "default")
    (subgroupArg : Option (AmqpOptions ⊕ String) := none)
    (options : Option AmqpOptions := none) : AmqpState :=
  match subgroupArg with
  | some (Sum.inl opts) => { group := group, options := opts }
  | some (Sum.inr sg) => { group := group, subgroup := some sg, options := options.getD {} }
  | none => { group := group, options := options.getD {} }

/-- Node's `setTimeout` delay coercion: a missing (`undefined`) delay, or
one outside `[1, 2147483647]`, is replaced by `1`. -/
def setTimeoutDelay : Option Nat → Nat
  | none => 1
  | some n => if n < 1 ∨ 2147483647 < n then 1 else n

/-- The queue name computed by `createQueue`:
`` `${group}:${(subgroup ? subgroup + ':' : '') + event}` ``.
The `this.subgroup ?` test is JavaScript truthiness, so both an unset
subgroup and an empty-string subgroup contribute nothing to the name. -/
def queueName (group : String) (subgroup : Option String) (event : String) : String :=
  group ++ ":" ++ ((match subgroup with
    | some sg => if sg = "" then "" else sg ++ ":"
    | none => "") ++ event)

/-- Method `Amqp#createQueue(event)`: computes the deterministic queue name,
asserts it with the broker's `assert` options and binds it to the
broker's exchange with the event name as routing key.  Every channel
operation goes through the `_channel` accessor, which throws when no
channel is assigned. -/
def createQueue (s : AmqpState) (event : String) :
    Except ChanError (String × List Effect) :=
  let queue := queueName s.group s.subgroup event
  if s.channel then
    Except.ok (queue,
      [Effect.assertQueue queue s.options.assert,
       Effect.bindQueue queue s.group event])
  else Except.error ChanError.noChannel

/-- Method `Amqp#publish(event, data, options)`: serializes the payload and
publishes it to the broker's exchange under the event routing key with
the caller's publish options. -/
def publish (s : AmqpState) (event : String) (data : String)
    (options : PublishOptions := {}) : Except ChanError (List Effect) :=
  if s.channel then
    Except.ok [Effect.publishMsg s.group event (serialize data) options]
  else Except.error ChanError.noChannel

/-- Modelled from the spec: `Broker#_awaitResponse(correlationId, timeout)`
(base class, not under `src/`): stores a correlation entry for the id and
returns a deferred result that resolves when a reply carrying that id is
received.  We model the correlation table as the list of outstanding ids. -/
def awaitResponse (pending : List String) (correlation : String) : List String :=
  correlation :: pending

/-- Modelled from the spec: `Broker#_handleReply(correlationId, content)`
(base class, not under `src/`): if the id matches an outstanding
correlation entry, that entry is removed and resolved with the decoded
payload; a reply whose id has no matching entry is silently dropped.
Returns the new table together with the resolution performed (the
resolved id and decoded payload), if any. -/
def handleReply (pending : List String) (correlationId : Option String)
    (content : Bytes) : List String × Option (String × String) :=
  match correlationId with
  | none => (pending, none)
  | some c =>
    if pending.contains c then (pending.erase c, some (c, deserialize content))
    else (pending, none)

/-- The consumer callback `connect` installs on the callback queue
(`src` lines 139-141): for each delivered message, hand its
`correlationId` property and its content to `_handleReply`; a `null`
message is ignored. -/
def replyConsumer (pending : List String) (msg : Option Message) :
    List String × Option (String × String) :=
  match msg with
  | none => (pending, none)
  | some m => handleReply pending m.correlationId m.content

/-- The result of a successful `call`: the channel effects performed, the
caller's options object as left after the call (mutated in place by
`Object.assign`), the correlation table with the new entry, and the
timeout handed to `_awaitResponse`. -/
structure CallResult where
  effects : List Effect
  options : PublishOptions
  pending : List String
  timeout : Option Nat
deriving Repr, DecidableEq

/-- Method `Amqp#call(method, data, options)`: generates a correlation id
(modelled as the extra argument `correlation`, since `ulid()` draws
fresh randomness), merges `replyTo` (the broker's callback queue) and
`correlationId` into the caller's options object via `Object.assign`
(which mutates its first argument and returns it), publishes, and awaits
the response through the shared correlation mechanism with the parsed
`expiration` as timeout. -/
def call (s : AmqpState) (method : String) (data : String)
    (options : PublishOptions) (correlation : String) :
    Except ChanError CallResult :=
  let assigned : PublishOptions :=
    { options with replyTo := s.callback, correlationId := some correlation }
  match publish s method data assigned with
  | Except.error e => Except.error e
  | Except.ok effs =>
    Except.ok
      { effects := effs
        options := assigned
        pending := awaitResponse s.pending correlation
        timeout :=
          match options.expiration with
          | some (ExpirationVal.str str) => parseInt10 str
          | some (ExpirationVal.num n) => some n
          | none => none }

/-- The message callback `_subscribe` registers for a consumed queue
(`src` lines 167-182): a `null` message is ignored; otherwise the raw
content is handed to the broker's dispatch (`_handleMessage`, base
class) together with reply/ack/nack/reject affordances, and if the
dispatch throws, the message is rejected without requeue and the thrown
value is reported via an `error` notification.  `dispatch` abstracts
`_handleMessage` applied to the listeners at hand: it returns the channel
effects the listeners performed, or the value a listener threw. -/
def consumeMessage (dispatch : Message → Except String (List Effect))
    (msg : Option Message) : List Effect :=
  match msg with
  | none => []
  | some m =>
    match dispatch m with
    | Except.ok effs => effs
    | Except.error e => [Effect.rejectMsg m false, Effect.emitError e]

/-- A consumer processing a stream of deliveries: each message is handled
independently by `consumeMessage`; the consumer is never halted by a
dispatch failure. -/
def consumeMessages (dispatch : Message → Except String (List Effect))
    (msgs : List (Option Message)) : List Effect :=
  (msgs.map (consumeMessage dispatch)).flatten

/-- The reply affordance handed to listeners (`src` line 172):
`sendToQueue(msg.properties.replyTo, serialize(data), { correlationId: msg.properties.correlationId })`. -/
def replyAffordance (msg : Message) (data : String) : Effect :=
  Effect.sendToQueue msg.replyTo (serialize data) msg.correlationId

/-- One step of `Amqp#_subscribe` for a single event (the body of the
`events.map` closure): create the queue, register a consumer on it (the
server answers with `tag`), and record the consumer tag in the
`_consumers` map.  The ghost `active` list gains the new server-side
consumer. -/
def subscribeOne (s : AmqpState) (tag : String) (event : String) :
    Except ChanError (AmqpState × List Effect) :=
  match createQueue s event with
  | Except.error e => Except.error e
  | Except.ok (queue, effs) =>
    if s.channel then
      Except.ok
        ({ s with
            consumers := consumersSet s.consumers event tag
            active := (event, tag) :: s.active },
          effs ++ [Effect.consume queue tag])
    else Except.error ChanError.noChannel

/-- Method `Amqp#_subscribe(events)`: each listed event is given a queue and a
consumer in turn (`tags` supplies the server-chosen consumer tag for
each event).  The source runs the per-event closures under
`Promise.all`; we model them sequentially. -/
def subscribeAll (tags : String → String) :
    AmqpState → List String → Except ChanError (AmqpState × List Effect)
  | s, [] => Except.ok (s, [])
  | s, e :: rest =>
    match subscribeOne s (tags e) e with
    | Except.error err => Except.error err
    | Except.ok (s1, effs1) =>
      match subscribeAll tags s1 rest with
      | Except.error err => Except.error err
      | Except.ok (s2, effs2) => Except.ok (s2, effs1 ++ effs2)

/-- Modelled from the spec: `Broker#subscribe(events)` (base class, not
under `src/`): registers the listener for every listed event and is
idempotent per event — re-subscribing to an already-subscribed event is
a no-op at the transport level, so only events without an active
subscription are delegated to the transport's `_subscribe`. -/
def subscribe (s : AmqpState) (events : List String) (tags : String → String) :
    Except ChanError (AmqpState × List Effect) :=
  match subscribeAll tags s (events.filter (fun e => ! s.subscribed.contains e)) with
  | Except.error err => Except.error err
  | Except.ok (s1, effs) =>
    Except.ok ({ s1 with subscribed := s1.subscribed ++ events.filter (fun e => ! s.subscribed.contains e) }, effs)

/-- One step of `Amqp#_unsubscribe` for a single event (the body of the
`events.map` closure): when the `_consumers` map holds a truthy tag for
the event (a JavaScript truthiness test, so an empty-string tag counts
as absent), the consumer is cancelled, removed from the map and from the
ghost `active` list, and `true` is returned; otherwise nothing happens
and `false` is returned. -/
def unsubscribeOne (s : AmqpState) (event : String) :
    Except ChanError (AmqpState × List Effect × Bool) :=
  match consumersGet s.consumers event with
  | some tag =>
    if tag = "" then Except.ok (s, [], false)
    else if s.channel then
      Except.ok
        ({ s with
            consumers := consumersDelete s.consumers event
            active := s.active.filter (fun p => p.1 != event) },
          [Effect.cancel tag], true)
    else Except.error ChanError.noChannel
  | none => Except.ok (s, [], false)

/-- Method `Amqp#_unsubscribe(events)`: the per-event step applied to every
listed event in turn, collecting the found/not-found indicators. -/
def unsubscribeAll :
    AmqpState → List String → Except ChanError (AmqpState × List Effect × List Bool)
  | s, [] => Except.ok (s, [], [])
  | s, e :: rest =>
    match unsubscribeOne s e with
    | Except.error err => Except.error err
    | Except.ok (s1, effs1, b) =>
      match unsubscribeAll s1 rest with
      | Except.error err => Except.error err
      | Except.ok (s2, effs2, bs) => Except.ok (s2, effs1 ++ effs2, b :: bs)

/-- One observable step of the `connect` retry loop and of the handlers
`connect` attaches to an established connection. -/
inductive ConnEvent where
  | emitClose (err : String)
  | delay (ms : Nat)
  | scheduleReconnect (ms : Nat)
  | emitError (err : String)
deriving Repr, DecidableEq

/-- The outcome of one `amqp.connect` attempt: a thrown connection error,
or an established connection (identified by a number). -/
inductive AttemptResult where
  | fail (err : String)
  | success (conn : Nat)
deriving Repr, DecidableEq

/-- The `while (!connection)` retry loop of `Amqp#connect` on a URL
descriptor, driven by the outcomes of successive `amqp.connect`
attempts: every failed attempt emits a `close` notification and then
waits `setTimeout(r, reconnectTimeout)` before the next attempt; the
loop ends only when an attempt succeeds.  Returns the trace of events
together with the established connection — `none` when the supplied
attempt outcomes ran out without a success, i.e. the loop is still
running. -/
def connectLoop (reconnectTimeout : Option Nat) :
    List AttemptResult → List ConnEvent × Option Nat
  | [] => ([], none)
  | AttemptResult.fail e :: rest =>
    let (evs, r) := connectLoop reconnectTimeout rest
    (ConnEvent.emitClose e :: ConnEvent.delay (setTimeoutDelay reconnectTimeout) :: evs, r)
  | AttemptResult.success c :: _ => ([], some c)

/-- The `close` handler `connect` attaches to an established connection
(`src` lines 123-128): when `isFatalError(err)` is false, emit a `close`
notification and schedule a reconnect after
`setTimeout(..., reconnectTimeout)`; when the error is fatal, the
handler does nothing.  `isFatal` abstracts amqplib's `isFatalError`. -/
def onCloseHandler (isFatal : String → Bool) (reconnectTimeout : Option Nat)
    (err : String) : List ConnEvent :=
  if isFatal err then []
  else [ConnEvent.emitClose err,
        ConnEvent.scheduleReconnect (setTimeoutDelay reconnectTimeout)]

/-- The `error` handler `connect` attaches to an established connection
(`src` lines 130-132): re-emit the error as an `error` notification. -/
def onErrorHandler (err : String) : List ConnEvent :=
  [ConnEvent.emitError err]

/-- An example dispatch function for exercising the consumer callback: the
listener throws on the payload `"boom"` and acknowledges any other
message. -/
def exampleDispatch : Message → Except String (List Effect) :=
  fun m =>
    if m.content = Bytes.ser "boom" then Except.error "listener failure"
    else Except.ok [Effect.ackMsg m]

/-- The per-event consumer invariant: the events of the server-side
active consumers are pairwise distinct (at most one active
transport-level consumer per event name), and every active consumer's
event is registered in the base-class subscription bookkeeping with its
tag recorded in the `_consumers` map. -/
def ConsumerInv (s : AmqpState) : Prop :=
  (s.active.map Prod.fst).Nodup ∧
  ∀ p ∈ s.active, p.1 ∈ s.subscribed ∧ consumersGet s.consumers p.1 = some p.2

/- ## Helper lemmas about the consumer map -/

theorem consumersGet_set_self (m : List (String × String)) (e t : String) :
    consumersGet (consumersSet m e t) e = some t := by
  simp [consumersGet, consumersSet, List.lookup]

theorem lookup_filter_ne (m : List (String × String)) (e k : String) (h : k ≠ e) :
    List.lookup k (m.filter (fun p => p.1 != e)) = List.lookup k m := by
  induction m with
  | nil => rfl
  | cons p rest ih =>
    by_cases hp : p.1 = e
    · have hne : (p.1 != e) = false := by simp [hp]
      have hk : (k == p.1) = false := by simp [hp, h]
      simp [List.filter_cons, hne, List.lookup, hk, ih]
    · have hne : (p.1 != e) = true := by simp [hp]
      cases hkp : (k == p.1) <;> simp [List.filter_cons, hne, List.lookup, hkp, ih]

theorem consumersGet_set_other (m : List (String × String)) (e t k : String)
    (h : k ≠ e) : consumersGet (consumersSet m e t) k = consumersGet m k := by
  have hk : (k == e) = false := by simp [h]
  simp [consumersGet, consumersSet, List.lookup, hk, lookup_filter_ne m e k h]

theorem setTimeoutDelay_eq_of_bounds (t : Nat) (ht : 1 ≤ t) (ht2 : t ≤ 2147483647) :
    setTimeoutDelay (some t) = t := by
  simp only [setTimeoutDelay]
  rw [if_neg]
  omega

theorem consumersGet_delete_self (m : List (String × String)) (e : String) :
    consumersGet (consumersDelete m e) e = none := by
  induction m with
  | nil => rfl
  | cons p rest ih =>
    by_cases hp : p.1 = e
    · have hne : (p.1 != e) = false := by simp [hp]
      simpa [consumersDelete, consumersGet, List.filter_cons, hne] using ih
    · have hne : (p.1 != e) = true := by simp [hp]
      have he : (e == p.1) = false := by simp [Ne.symm hp]
      simp only [consumersDelete, consumersGet] at ih ⊢
      simpa [List.filter_cons, hne, List.lookup, he] using ih

/- ## Claim theorems -/

/-- C2: Queue-name derivation by `createQueue` is a deterministic function
of (group, subgroup, event): with a live channel it yields `"g:ev"` when
the subgroup is unset and `"g:sg:ev"` when a JavaScript-truthy (i.e.
non-empty) subgroup `sg` is set — the source tests `this.subgroup ?`, so
an empty-string subgroup behaves exactly like an unset one — and the
queue is bound to the broker's exchange (`group`) with the event name as
routing key. -/
theorem createQueue_deterministic_name_and_binding (s : AmqpState) (event : String)
    (hch : s.channel = true) :
    createQueue s event = Except.ok (queueName s.group s.subgroup event,
      [Effect.assertQueue (queueName s.group s.subgroup event) s.options.assert,
       Effect.bindQueue (queueName s.group s.subgroup event) s.group event]) ∧
    (s.subgroup = none → queueName s.group s.subgroup event = s.group ++ ":" ++ event) ∧
    (∀ sg, s.subgroup = some sg → sg ≠ "" →
      queueName s.group s.subgroup event = s.group ++ ":" ++ sg ++ ":" ++ event) ∧
    (s.subgroup = some "" → queueName s.group s.subgroup event = s.group ++ ":" ++ event) := by
  refine ⟨by simp [createQueue, hch], fun hn => ?_, fun sg hs hne => ?_, fun he => ?_⟩
  · simp [queueName, hn]
  · simp [queueName, hs, hne, String.append_assoc]
  · simp [queueName, he]

/-- Witness for C2 at a concrete broker: group `"gateway"`, subgroup
`"workers"`, event `"MESSAGE"`; also checks the subgroup-less name and
the JavaScript-falsy empty-string subgroup on further brokers. -/
theorem createQueue_deterministic_name_and_binding_witness :
    (AmqpState.channel { group := "gateway", subgroup := some "workers", channel := true } = true) ∧
      createQueue { group := "gateway", subgroup := some "workers", channel := true } "MESSAGE" =
        Except.ok ("gateway:workers:MESSAGE",
          [Effect.assertQueue "gateway:workers:MESSAGE" none,
           Effect.bindQueue "gateway:workers:MESSAGE" "gateway" "MESSAGE"]) ∧
      queueName "gateway" none "MESSAGE" = "gateway:MESSAGE" ∧
      queueName "gateway" (some "") "MESSAGE" = "gateway:MESSAGE" := by
  refine ⟨rfl, ?_, ?_, ?_⟩
  · have h := (createQueue_deterministic_name_and_binding
      { group := "gateway", subgroup := some "workers", channel := true } "MESSAGE" rfl).1
    simpa [queueName] using h
  · have h := (createQueue_deterministic_name_and_binding
      { group := "gateway", subgroup := none, channel := true } "MESSAGE" rfl).2.1 rfl
    simpa using h
  · have h := (createQueue_deterministic_name_and_binding
      { group := "gateway", subgroup := some "", channel := true } "MESSAGE" rfl).2.2.2 rfl
    simpa using h

/-- C3: a message whose dispatch throws is rejected without requeue and
the thrown value is reported via an `error` notification, and a
subsequent, independent message delivered to the same consumer is
processed normally. -/
theorem listener_throw_rejects_and_continues
    (dispatch : Message → Except String (List Effect)) (m1 m2 : Message)
    (e : String) (effs : List Effect)
    (h1 : dispatch m1 = Except.error e) (h2 : dispatch m2 = Except.ok effs) :
    consumeMessages dispatch [some m1, some m2] =
      Effect.rejectMsg m1 false :: Effect.emitError e :: effs := by
  simp [consumeMessages, consumeMessage, h1, h2]

/-- Witness for C3: `exampleDispatch` throws on the `"boom"` payload and
acknowledges the following `"ok"` payload. -/
theorem listener_throw_rejects_and_continues_witness :
    consumeMessages exampleDispatch
      [some { content := Bytes.ser "boom" }, some { content := Bytes.ser "ok" }] =
      Effect.rejectMsg { content := Bytes.ser "boom" } false ::
        Effect.emitError "listener failure" ::
        [Effect.ackMsg { content := Bytes.ser "ok" }] :=
  listener_throw_rejects_and_continues exampleDispatch
    { content := Bytes.ser "boom" } { content := Bytes.ser "ok" }
    "listener failure" [Effect.ackMsg { content := Bytes.ser "ok" }]
    (by simp [exampleDispatch]) (by simp [exampleDispatch])

/-- C7 (code bug): a broker constructed without a `reconnectTimeout`
option has no reconnect delay recorded (`options.reconnectTimeout` stays
`undefined`, contradicting the constructor's own
`[options.reconnectTimeout=1e4]` documentation), and the delay
`setTimeout` actually applies for it is 1 ms, not ~10000 ms. -/
theorem reconnect_timeout_default_missing :
    (amqpNew "default" none none).options.reconnectTimeout = none ∧
    setTimeoutDelay (amqpNew "default" none none).options.reconnectTimeout = 1 ∧
    setTimeoutDelay (amqpNew "default" none none).options.reconnectTimeout ≠ 10000 := by
  exact ⟨rfl, rfl, by decide⟩

/-- C9: before `connect` has completed (no channel assigned), `publish`,
`createQueue` and the transport subscription all fail immediately with
the `no available amqp channel` error; the definitions contain no retry,
so the failure is final. -/
theorem no_channel_fails_operations (s : AmqpState) (hch : s.channel = false)
    (event data : String) (opts : PublishOptions) (tags : String → String)
    (e : String) (rest : List String) :
    publish s event data opts = Except.error ChanError.noChannel ∧
    createQueue s event = Except.error ChanError.noChannel ∧
    subscribeAll tags s (e :: rest) = Except.error ChanError.noChannel ∧
    ChanError.message ChanError.noChannel = "no available amqp channel" := by
  refine ⟨?_, ?_, ?_, rfl⟩ <;>
    simp [publish, createQueue, subscribeAll, subscribeOne, hch]

/-- Witness for C9: a freshly constructed broker (no channel) refuses all
three channel operations. -/
theorem no_channel_fails_operations_witness :
    (amqpNew "default" none none).channel = false ∧
      (publish (amqpNew "default" none none) "ev" "data" {} =
        Except.error ChanError.noChannel ∧
       createQueue (amqpNew "default" none none) "ev" =
        Except.error ChanError.noChannel ∧
       subscribeAll (fun _ => "tag") (amqpNew "default" none none) ["ev"] =
        Except.error ChanError.noChannel) := by
  refine ⟨rfl, ?_, ?_, ?_⟩
  · exact (no_channel_fails_operations (amqpNew "default" none none) rfl
      "ev" "data" {} (fun _ => "tag") "ev" []).1
  · exact (no_channel_fails_operations (amqpNew "default" none none) rfl
      "ev" "data" {} (fun _ => "tag") "ev" []).2.1
  · exact (no_channel_fails_operations (amqpNew "default" none none) rfl
      "ev" "data" {} (fun _ => "tag") "ev" []).2.2.1

/-- C10: `call` mutates the caller-supplied options object through
`Object.assign`: afterwards the caller's own object carries
`replyTo = callback queue` and `correlationId = generated id`, while its
remaining fields (`expiration` and the untouched rest) are unchanged.
(`CallResult.options` is the caller's object as left after the call,
since `Object.assign` targets the passed-in object rather than a copy.) -/
theorem call_assign_mutates_caller_options (s : AmqpState) (method data : String)
    (options : PublishOptions) (correlation cb : String)
    (hch : s.channel = true) (hcb : s.callback = some cb) :
    ∃ r, call s method data options correlation = Except.ok r ∧
      r.options.replyTo = some cb ∧
      r.options.correlationId = some correlation ∧
      r.options.expiration = options.expiration ∧
      r.options.rest = options.rest := by
  simp only [call, publish, hch, if_true, ite_true]
  refine ⟨_, rfl, ?_, ?_, ?_⟩ <;> simp [hcb]

/-- Witness for C10: a concrete `call` on a connected broker leaves the
caller's `expiration` and `rest` untouched and overwrites `replyTo` and
`correlationId`. -/
theorem call_assign_mutates_caller_options_witness :
    ∃ r, call { group := "g", channel := true, callback := some "amq.gen-cb" }
        "method" "payload"
        { expiration := some (ExpirationVal.str "5000"), rest := "persistent" }
        "01ARZ3NDEKTSV4RRFFQ69G5FAV" = Except.ok r ∧
      r.options.replyTo = some "amq.gen-cb" ∧
      r.options.correlationId = some "01ARZ3NDEKTSV4RRFFQ69G5FAV" ∧
      r.options.expiration = some (ExpirationVal.str "5000") ∧
      r.options.rest = "persistent" :=
  call_assign_mutates_caller_options
    { group := "g", channel := true, callback := some "amq.gen-cb" }
    "method" "payload"
    { expiration := some (ExpirationVal.str "5000"), rest := "persistent" }
    "01ARZ3NDEKTSV4RRFFQ69G5FAV" "amq.gen-cb" rfl rfl

/-- C1: with a live channel and callback queue, `call` publishes the
message with the generated correlation id and the callback queue name
attached as message properties, the payload being exactly the serialized
data (the properties travel outside it); the correlation entry is
registered (and, as the id is fresh, it is the unique outstanding entry
for that id), and when a message bearing that correlation id arrives on
the dedicated reply queue, the reply consumer resolves that entry with
the decoded payload and removes it from the table. -/
theorem call_publishes_correlated_and_awaits_reply (s : AmqpState)
    (method data : String) (options : PublishOptions) (correlation cb : String)
    (reply : Message) (hch : s.channel = true) (hcb : s.callback = some cb)
    (hfresh : correlation ∉ s.pending) (hrep : reply.correlationId = some correlation) :
    ∃ r, call s method data options correlation = Except.ok r ∧
      r.effects = [Effect.publishMsg s.group method (serialize data)
        { options with replyTo := some cb, correlationId := some correlation }] ∧
      r.pending = correlation :: s.pending ∧
      r.pending.count correlation = 1 ∧
      replyConsumer r.pending (some reply) =
        (s.pending, some (correlation, deserialize reply.content)) := by
  simp only [call, publish, hch, if_true, ite_true]
  refine ⟨_, rfl, ?_, ?_, ?_, ?_⟩
  · simp [hcb]
  · simp [awaitResponse]
  · simp [awaitResponse, List.count_cons, List.count_eq_zero_of_not_mem hfresh]
  · simp [awaitResponse, replyConsumer, handleReply, hrep]

/-- Witness for C1: a concrete RPC round trip on a connected broker. -/
theorem call_publishes_correlated_and_awaits_reply_witness :
    ∃ r, call { group := "g", channel := true, callback := some "amq.gen-cb", pending := ["OLD"] } "getUser" "payload" {} "CID1" = Except.ok r ∧
      r.effects = [Effect.publishMsg "g" "getUser" (serialize "payload")
        { replyTo := some "amq.gen-cb", correlationId := some "CID1" }] ∧
      r.pending = ["CID1", "OLD"] ∧
      r.pending.count "CID1" = 1 ∧
      replyConsumer r.pending
        (some { correlationId := some "CID1", content := Bytes.ser "reply-payload" }) =
        (["OLD"], some ("CID1", "reply-payload")) :=
  call_publishes_correlated_and_awaits_reply
    { group := "g", channel := true, callback := some "amq.gen-cb", pending := ["OLD"] }
    "getUser" "payload" {} "CID1" "amq.gen-cb"
    { correlationId := some "CID1", content := Bytes.ser "reply-payload" }
    rfl rfl (by decide) rfl

/-- C4: `_unsubscribe` on a single event: with no consumer recorded for
the event it returns the not-found indicator `false` without throwing
(whatever the channel state); with a (non-empty, i.e. JavaScript-truthy)
consumer tag recorded and a live channel, the consumer is cancelled,
forgotten from the consumer map, and `true` is returned. -/
theorem unsubscribe_not_found_and_found (s : AmqpState) (e tag : String) :
    (consumersGet s.consumers e = none →
      unsubscribeOne s e = Except.ok (s, [], false)) ∧
    (consumersGet s.consumers e = some tag → tag ≠ "" → s.channel = true →
      unsubscribeOne s e =
        Except.ok ({ s with consumers := consumersDelete s.consumers e, active := s.active.filter (fun p => p.1 != e) },
          [Effect.cancel tag], true) ∧
      consumersGet (consumersDelete s.consumers e) e = none) := by
  constructor
  · intro hn
    simp [unsubscribeOne, hn]
  · intro hs hne hch
    refine ⟨?_, consumersGet_delete_self s.consumers e⟩
    simp [unsubscribeOne, hs, hne, hch]

/-- Witness for C4: one broker with no consumer for `"ev"`, one broker
with consumer tag `"ctag-1"` for `"ev"`. -/
theorem unsubscribe_not_found_and_found_witness :
    unsubscribeOne { group := "g" } "ev" = Except.ok ({ group := "g" }, [], false) ∧
      (unsubscribeOne { group := "g", channel := true, consumers := [("ev", "ctag-1")] } "ev" =
        Except.ok ({ group := "g", channel := true, consumers := [] },
          [Effect.cancel "ctag-1"], true) ∧
       consumersGet (consumersDelete [("ev", "ctag-1")] "ev") "ev" = none) := by
  constructor
  · exact (unsubscribe_not_found_and_found { group := "g" } "ev" "ctag-1").1 rfl
  · have h := (unsubscribe_not_found_and_found { group := "g", channel := true, consumers := [("ev", "ctag-1")] } "ev" "ctag-1").2 rfl (by decide) rfl
    refine ⟨?_, h.2⟩
    have h1 := h.1
    simpa [consumersDelete] using h1

/-- C5: the `connect` retry loop on a URL descriptor: every failed
attempt emits a `close` notification followed by a `reconnectTimeout`
delay before the next attempt, and the loop never terminates on its own
— a run of failures alone yields no connection (first conjunct), and the
loop returns exactly when an attempt succeeds, with one close/delay pair
per preceding failure (second conjunct). -/
theorem connect_retries_until_established (t : Nat) (ht : 1 ≤ t)
    (ht2 : t ≤ 2147483647) (fails : List String) (c : Nat)
    (rest : List AttemptResult) :
    connectLoop (some t) (fails.map AttemptResult.fail) =
      ((fails.map (fun e => [ConnEvent.emitClose e, ConnEvent.delay t])).flatten,
        none) ∧
    connectLoop (some t) (fails.map AttemptResult.fail ++ AttemptResult.success c :: rest) =
      ((fails.map (fun e => [ConnEvent.emitClose e, ConnEvent.delay t])).flatten,
        some c) := by
  have hd : setTimeoutDelay (some t) = t := setTimeoutDelay_eq_of_bounds t ht ht2
  induction fails with
  | nil => simp [connectLoop]
  | cons f fs ih =>
    refine ⟨?_, ?_⟩ <;>
      simp [connectLoop, hd, ih.1, ih.2]

/-- Witness for C5: two failed attempts, then a successful one, with the
documented 10000 ms delay configured. -/
theorem connect_retries_until_established_witness :
    connectLoop (some 10000)
        [AttemptResult.fail "ECONNREFUSED", AttemptResult.fail "ETIMEDOUT"] =
      ([ConnEvent.emitClose "ECONNREFUSED", ConnEvent.delay 10000,
        ConnEvent.emitClose "ETIMEDOUT", ConnEvent.delay 10000], none) ∧
    connectLoop (some 10000)
        [AttemptResult.fail "ECONNREFUSED", AttemptResult.fail "ETIMEDOUT",
         AttemptResult.success 1] =
      ([ConnEvent.emitClose "ECONNREFUSED", ConnEvent.delay 10000,
        ConnEvent.emitClose "ETIMEDOUT", ConnEvent.delay 10000], some 1) := by
  have h := connect_retries_until_established 10000 (by decide) (by decide)
    ["ECONNREFUSED", "ETIMEDOUT"] 1 []
  exact ⟨by simpa using h.1, by simpa using h.2⟩

/-- C6 counterexample: at a fatal close error, the handler `connect`
attaches emits nothing at all — the close is not surfaced by any
notification, contrary to the claim that a fatal close is surfaced. -/
theorem fatal_close_emits_nothing :
    onCloseHandler (fun _ => true) (some 10000) "403 ACCESS-REFUSED" = [] := rfl

/-- C6 (amended): after a connection is established, a non-fatal close
event emits a `close` notification and schedules a reconnect after the
`reconnectTimeout` delay; a fatal close is not retried automatically and
the close handler emits no notification for it; a connection-level error
event emits an `error` notification and nothing else (in particular it
does not close the connection). -/
theorem close_error_handlers_amended (isFatal : String → Bool) (t : Nat)
    (err : String) (ht : 1 ≤ t) (ht2 : t ≤ 2147483647) :
    (isFatal err = false → onCloseHandler isFatal (some t) err =
      [ConnEvent.emitClose err, ConnEvent.scheduleReconnect t]) ∧
    (isFatal err = true → onCloseHandler isFatal (some t) err = []) ∧
    onErrorHandler err = [ConnEvent.emitError err] := by
  have hd : setTimeoutDelay (some t) = t := setTimeoutDelay_eq_of_bounds t ht ht2
  refine ⟨fun hf => ?_, fun hf => ?_, rfl⟩ <;> simp [onCloseHandler, hf, hd]

/-- Witness for C6 (amended): a non-fatal network blip with a 10000 ms
delay, a fatal access-refused close, and a connection-level error. -/
theorem close_error_handlers_amended_witness :
    onCloseHandler (fun e => e = "403 ACCESS-REFUSED") (some 10000) "ECONNRESET" =
      [ConnEvent.emitClose "ECONNRESET", ConnEvent.scheduleReconnect 10000] ∧
    onCloseHandler (fun e => e = "403 ACCESS-REFUSED") (some 10000) "403 ACCESS-REFUSED" = [] ∧
    onErrorHandler "heartbeat timeout" = [ConnEvent.emitError "heartbeat timeout"] := by
  have h := close_error_handlers_amended (fun e => e = "403 ACCESS-REFUSED") 10000
    "ECONNRESET" (by decide) (by decide)
  have h2 := close_error_handlers_amended (fun e => e = "403 ACCESS-REFUSED") 10000
    "403 ACCESS-REFUSED" (by decide) (by decide)
  exact ⟨h.1 (by decide), h2.2.1 (by decide),
    close_error_handlers_amended (fun _ => false) 1 "heartbeat timeout"
      (by decide) (by decide) |>.2.2⟩

/-- Preservation of the consumer invariant along `subscribeAll`, for a
duplicate-free batch of events none of which already has an active
consumer. -/
theorem subscribeAll_inv (tags : String → String) :
    ∀ (es : List String) (s : AmqpState), es.Nodup →
      (s.active.map Prod.fst).Nodup →
      (∀ p ∈ s.active, consumersGet s.consumers p.1 = some p.2) →
      (∀ p ∈ s.active, p.1 ∉ es) →
      ∀ s' effs, subscribeAll tags s es = Except.ok (s', effs) →
        (s'.active.map Prod.fst).Nodup ∧
        (∀ p ∈ s'.active, consumersGet s'.consumers p.1 = some p.2) ∧
        s'.subscribed = s.subscribed ∧
        (∀ p ∈ s'.active, p.1 ∈ s.active.map Prod.fst ∨ p.1 ∈ es)
  | [], s, _, hand, hacons, _, s', effs, hok => by
    simp only [subscribeAll, Except.ok.injEq, Prod.mk.injEq] at hok
    obtain ⟨hs, _⟩ := hok
    subst hs
    exact ⟨hand, hacons, rfl, fun p hp => Or.inl (List.mem_map_of_mem Prod.fst hp)⟩
  | e :: rest, s, hnd, hand, hacons, hdisj, s', effs, hok => by
    by_cases hch : s.channel = true
    · rw [show subscribeAll tags s (e :: rest) = (match subscribeAll tags ({ s with consumers := consumersSet s.consumers e (tags e), active := (e, tags e) :: s.active }) rest with | Except.error err => Except.error err | Except.ok (s2, effs2) => Except.ok (s2, ([Effect.assertQueue (queueName s.group s.subgroup e) s.options.assert, Effect.bindQueue (queueName s.group s.subgroup e) s.group e] ++ [Effect.consume (queueName s.group s.subgroup e) (tags e)]) ++ effs2)) from by simp [subscribeAll, subscribeOne, createQueue, hch]] at hok
      set s1 : AmqpState := { s with consumers := consumersSet s.consumers e (tags e), active := (e, tags e) :: s.active } with hs1
      cases hrec : subscribeAll tags s1 rest with
      | error err => rw [hrec] at hok; simp at hok
      | ok pr =>
        obtain ⟨s2, effs2⟩ := pr
        rw [hrec] at hok
        simp only [Except.ok.injEq, Prod.mk.injEq] at hok
        obtain ⟨hs2, -⟩ := hok
        subst hs2
        have hactive1 : s1.active = (e, tags e) :: s.active := rfl
        have hmap1 : s1.active.map Prod.fst = e :: s.active.map Prod.fst := by
          simp [hactive1]
        have hnd1 : (s1.active.map Prod.fst).Nodup := by
          rw [hmap1]
          refine List.nodup_cons.mpr ⟨?_, hand⟩
          intro hmem
          obtain ⟨p, hp, hpe⟩ := List.mem_map.mp hmem
          exact (hdisj p hp) (hpe ▸ List.mem_cons_self e rest)
        have hacons1 : ∀ p ∈ s1.active, consumersGet s1.consumers p.1 = some p.2 := by
          intro p hp
          rw [hactive1] at hp
          rcases List.mem_cons.mp hp with hp | hp
          · subst hp
            exact consumersGet_set_self s.consumers e (tags e)
          · have hne : p.1 ≠ e := fun hpe => (hdisj p hp) (hpe ▸ List.mem_cons_self e rest)
            rw [show s1.consumers = consumersSet s.consumers e (tags e) from rfl,
              consumersGet_set_other s.consumers e (tags e) p.1 hne]
            exact hacons p hp
        have hdisj1 : ∀ p ∈ s1.active, p.1 ∉ rest := by
          intro p hp
          rw [hactive1] at hp
          rcases List.mem_cons.mp hp with hp | hp
          · subst hp
            exact (List.nodup_cons.mp hnd).1
          · intro hmem
            exact (hdisj p hp) (List.mem_cons_of_mem e hmem)
        have ih := subscribeAll_inv tags rest s1 (List.nodup_cons.mp hnd).2
          hnd1 hacons1 hdisj1 s2 effs2 hrec
        refine ⟨ih.1, ih.2.1, ?_, ?_⟩
        · rw [ih.2.2.1]
        · intro p hp
          rcases ih.2.2.2 p hp with hmem | hmem
          · rw [hmap1] at hmem
            rcases List.mem_cons.mp hmem with hmem | hmem
            · exact Or.inr (hmem ▸ List.mem_cons_self e rest)
            · exact Or.inl hmem
          · exact Or.inr (List.mem_cons_of_mem e hmem)
    · simp [subscribeAll, subscribeOne, createQueue, hch] at hok

/-- Membership in the fresh-events filter of `subscribe` implies the
event was not yet subscribed. -/
theorem mem_fresh_not_subscribed (sub events : List String) (x : String)
    (h : x ∈ events.filter (fun e => ! sub.contains e)) : x ∉ sub := by
  have hc := (List.mem_filter.mp h).2
  intro hmem
  rw [Bool.not_eq_true'] at hc
  have ht : sub.contains x = true := by simpa using hmem
  rw [ht] at hc
  cases hc

/-- C8: with the consumer invariant holding and a duplicate-free event
list, `subscribe` preserves the invariant — at most one active
transport-level consumer per event, each recorded in the consumer map
under its tag — and re-subscribing to events that are all already
subscribed is a no-op at the transport level: no channel effect is
performed and no consumer is created. -/
theorem subscribe_at_most_one_consumer (s : AmqpState) (events : List String)
    (tags : String → String) (hnd : events.Nodup) (hinv : ConsumerInv s) :
    (∀ s' effs, subscribe s events tags = Except.ok (s', effs) → ConsumerInv s') ∧
    ((∀ e ∈ events, e ∈ s.subscribed) → subscribe s events tags = Except.ok (s, [])) := by
  constructor
  · intro s' effs hok
    unfold subscribe at hok
    cases hrec : subscribeAll tags s (events.filter (fun e => ! s.subscribed.contains e)) with
    | error err => rw [hrec] at hok; simp at hok
    | ok pr =>
      obtain ⟨s1, effs1⟩ := pr
      rw [hrec] at hok
      simp only [Except.ok.injEq, Prod.mk.injEq] at hok
      obtain ⟨hs', -⟩ := hok
      subst hs'
      have hfnd : (events.filter (fun e => ! s.subscribed.contains e)).Nodup :=
        hnd.filter _
      have hdisj : ∀ p ∈ s.active,
          p.1 ∉ events.filter (fun e => ! s.subscribed.contains e) := by
        intro p hp hmem
        exact mem_fresh_not_subscribed s.subscribed events p.1 hmem (hinv.2 p hp).1
      have h1 := subscribeAll_inv tags (events.filter (fun e => ! s.subscribed.contains e))
        s hfnd hinv.1 (fun p hp => (hinv.2 p hp).2) hdisj s1 effs1 hrec
      refine ⟨h1.1, ?_⟩
      intro p hp
      refine ⟨?_, h1.2.1 p hp⟩
      show p.1 ∈ s1.subscribed ++ events.filter (fun e => ! s.subscribed.contains e)
      rw [h1.2.2.1]
      rcases h1.2.2.2 p hp with hmem | hmem
      · obtain ⟨q, hq, hqe⟩ := List.mem_map.mp hmem
        exact List.mem_append_left _ (hqe ▸ (hinv.2 q hq).1)
      · exact List.mem_append_right _ hmem
  · intro hall
    have hf : events.filter (fun e => ! s.subscribed.contains e) = [] := by
      rw [List.filter_eq_nil_iff]
      intro a ha
      simpa using hall a ha
    unfold subscribe
    rw [hf]
    simp [subscribeAll]

/-- Witness for C8: a broker already subscribed to `"a"` with one active
consumer; re-subscribing `["a"]` is a transport-level no-op. -/
theorem subscribe_at_most_one_consumer_witness :
    List.Nodup ["a"] ∧
    ConsumerInv { group := "g", channel := true, consumers := [("a", "t1")], subscribed := ["a"], active := [("a", "t1")] } ∧
    subscribe { group := "g", channel := true, consumers := [("a", "t1")], subscribed := ["a"], active := [("a", "t1")] } ["a"] (fun _ => "t2") =
      Except.ok ({ group := "g", channel := true, consumers := [("a", "t1")], subscribed := ["a"], active := [("a", "t1")] }, []) := by
  have hinv : ConsumerInv { group := "g", channel := true, consumers := [("a", "t1")], subscribed := ["a"], active := [("a", "t1")] } := by
    unfold ConsumerInv
    constructor
    · decide
    · decide
  refine ⟨by decide, hinv, ?_⟩
  exact (subscribe_at_most_one_consumer
    { group := "g", channel := true, consumers := [("a", "t1")], subscribed := ["a"], active := [("a", "t1")] }
    ["a"] (fun _ => "t2") (by decide) hinv).2 (by decide)

end Spectacles
